import Mathlib

/-!
Shallow embedding of the Hugging-Face runner core of the repository
(`src/decorators.py`, `src/models.py`): the `BaseModelRunner` state, the
`timeit` and `ensure_initialized` decorators, the `TextModelRunner` and
`ImageModelRunner` subclasses and the two factory functions.

Modelling conventions:
* Python object mutation becomes explicit state passing: every method takes a
  `Runner` and returns the updated `Runner` together with an `Except Err _`
  result (a raised exception becomes `Except.error`).
* `time.time()` values are modelled as integer timestamps supplied by the
  caller (`t0` at the start of a `timeit` wrapper, `t1` in its `finally`
  block); wall-clock monotonicity during a call is the hypothesis `t0 ≤ t1`.
* The external provider (`transformers.pipeline`, the pipeline object, and
  `PIL.Image.open(...).convert("RGB")`) is opaque to this code base, so it is a
  parameter: an environment record of functions that may fail.
* Logging (`LoggingMixin.log`) only prints, with one observable exception: the
  text runner's log line evaluates `len(user_input)`, which raises `TypeError`
  for inputs without a length. `pyLen` models that.
-/

namespace HFApp

/-- A Python exception value, by class and message. -/
inductive Err where
  | runtimeError (msg : String)
  | typeError (msg : String)
  | pipeError (msg : String)
deriving DecidableEq, Repr

/-- One labeled score entry as returned by a classification pipeline. -/
structure ScoreEntry where
  label : String
  score : Rat
deriving DecidableEq, Repr

/-- An opaque in-memory `PIL.Image.Image` object. -/
structure PILImage where
  id : Nat
deriving DecidableEq, Repr

/-- A Python numeric value as accepted by `int(...)`. -/
inductive PyNum where
  | int (n : Int)
  | float (q : Rat)
deriving DecidableEq, Repr

/-- `int(x)` on a number: identity on ints, truncation toward zero on floats. -/
def PyNum.toInt : PyNum → Int
  | .int n => n
  | .float q => if 0 ≤ q then ⌊q⌋ else ⌈q⌉

/-- The dataclass state of `BaseModelRunner`, generic in the opaque pipeline
object type `π`. Fields and defaults follow the dataclass declaration. -/
structure Runner (π : Type) where
  model_id : String
  task : String
  category : String
  short_description : String := ""
  _initialized : Bool := false
  _pipe : Option π := none
  last_runtime_s : Int := 0
deriving DecidableEq, Repr

/-- The dict returned by `meta()`. -/
structure MetaInfo where
  name : String
  category : String
  short_description : String
deriving DecidableEq, Repr

/-- The dict returned by a successful `run()` (the Result of the spec). -/
structure RunResult where
  results : List ScoreEntry
  runtime_s : Int
  model : String
  task : String
deriving DecidableEq, Repr

/-- A method body: reads and updates the runner, yielding a value or raising. -/
def Method (π α : Type) := Runner π → Except Err α × Runner π

/-- `decorators.timeit`: run the body under `try/finally`; the `finally` block
stores `t1 - t0` into `last_runtime_s` on the state the body produced, whether
the body returned or raised, and passes the body's outcome through unchanged. -/
def timeit {π α : Type} (t0 t1 : Int) (body : Method π α) : Method π α :=
  fun r => ((body r).1, { (body r).2 with last_runtime_s := t1 - t0 })

/-- The exact message of the initialization guard. -/
def uninitializedMsg : String := "Model is not initialized. Call `load()` first."

/-- `decorators.ensure_initialized`: if `self._initialized` is falsy, raise
`RuntimeError` without invoking the wrapped method; otherwise delegate. -/
def ensure_initialized {π α : Type} (body : Method π α) : Method π α :=
  fun r =>
    if r._initialized then body r
    else (.error (.runtimeError uninitializedMsg), r)

/-- `BaseModelRunner.describe`: the generic fallback description. -/
def describeBase {π : Type} (r : Runner π) : String :=
  "Generic model runner for task=" ++ r.task ++ ", model=" ++ r.model_id ++ "."

/-- `BaseModelRunner.meta`, parameterized by the (virtual) `describe` method:
`self.short_description or self.describe()` falls back to `describe()` exactly
when `short_description` is the empty string. -/
def metaBase {π : Type} (describe : Runner π → String) (r : Runner π) : MetaInfo :=
  { name := r.model_id
    category := r.category
    short_description :=
      if r.short_description = "" then describe r else r.short_description }

/-! ## Text runner -/

/-- A dynamically-typed `user_input` value handed to the text runner. -/
inductive TextInput where
  | str (s : String)
  | int (n : Int)
  | list (xs : List String)
deriving DecidableEq, Repr

/-- The environment seen by `TextModelRunner`: `transformers.pipeline`
construction and invocation of the resulting pipeline object on the raw user
input. Both are external and may raise. -/
structure TextEnv (π : Type) where
  pipeline : (task : String) → (model : String) → Except Err π
  callPipe : π → TextInput → Except Err (List ScoreEntry)

/-- `len(user_input)` as evaluated by the log f-string: defined for strings and
lists, raises `TypeError` for an integer. -/
def pyLen : TextInput → Except Err Nat
  | .str s => .ok s.length
  | .list xs => .ok xs.length
  | .int _ => .error (.typeError "object of type int has no len()")

/-- Body of `TextModelRunner.load`: `self._pipe = pipeline(...)` then
`self._initialized = True`; if construction raises, neither field is written. -/
def TextModelRunner.loadBody {π : Type} (env : TextEnv π) : Method π Unit :=
  fun r =>
    match env.pipeline r.task r.model_id with
    | .error e => (.error e, r)
    | .ok p => (.ok (), { r with _pipe := some p, _initialized := true })

/-- `TextModelRunner.load = timeit(loadBody)`. -/
def TextModelRunner.load {π : Type} (env : TextEnv π) (t0 t1 : Int) : Method π Unit :=
  timeit t0 t1 (TextModelRunner.loadBody env)

/-- Body of `TextModelRunner.run`: evaluate `len(user_input)` for the log line,
invoke `self._pipe(user_input)`, and build the result dict. `runtime_s` copies
`self.last_runtime_s` as it stands here, before `timeit`'s `finally` block
overwrites it. Calling a `None` pipe would raise `TypeError` as in Python. -/
def TextModelRunner.runBody {π : Type} (env : TextEnv π) (input : TextInput) :
    Method π RunResult :=
  fun r =>
    match pyLen input with
    | .error e => (.error e, r)
    | .ok _ =>
      match r._pipe with
      | none => (.error (.typeError "NoneType object is not callable"), r)
      | some p =>
        match env.callPipe p input with
        | .error e => (.error e, r)
        | .ok results =>
          (.ok { results := results
                 runtime_s := r.last_runtime_s
                 model := r.model_id
                 task := r.task }, r)

/-- `TextModelRunner.run = ensure_initialized(timeit(runBody))` (decorators
apply bottom-up: `@ensure_initialized` above `@timeit`). -/
def TextModelRunner.run {π : Type} (env : TextEnv π) (t0 t1 : Int)
    (input : TextInput) : Method π RunResult :=
  ensure_initialized (timeit t0 t1 (TextModelRunner.runBody env input))

/-- `TextModelRunner.describe` override. -/
def TextModelRunner.describe {π : Type} (r : Runner π) : String :=
  "TextModelRunner overrides describe(): runs a text pipeline (e.g., sentiment-analysis).\n"
    ++ "Model: " ++ r.model_id ++ "\nTask: " ++ r.task

/-- `meta()` as dispatched on a `TextModelRunner` instance. -/
def TextModelRunner.meta {π : Type} (r : Runner π) : MetaInfo :=
  metaBase TextModelRunner.describe r

/-! ## Image runner -/

/-- A dynamically-typed `user_input` value handed to the image runner: a path
string, an in-memory `PIL.Image.Image`, or anything else (e.g. an integer). -/
inductive ImageInput where
  | path (p : String)
  | pil (img : PILImage)
  | intVal (n : Int)
deriving DecidableEq, Repr

/-- The keyword arguments of `run`; only `top_k` is ever read. -/
structure Kwargs where
  top_k : Option PyNum := none
deriving DecidableEq, Repr

/-- The environment seen by `ImageModelRunner`: pipeline construction,
`Image.open(path).convert("RGB")`, and pipeline invocation with `top_k`. -/
structure ImageEnv (π : Type) where
  pipeline : (task : String) → (model : String) → Except Err π
  openRGB : String → Except Err PILImage
  callPipe : π → PILImage → Int → Except Err (List ScoreEntry)

/-- `ImageModelRunner._preprocess`: the identity hook. -/
def ImageModelRunner._preprocess (img : PILImage) : PILImage := img

/-- Body of `ImageModelRunner.load`: identical to the text runner's. -/
def ImageModelRunner.loadBody {π : Type} (env : ImageEnv π) : Method π Unit :=
  fun r =>
    match env.pipeline r.task r.model_id with
    | .error e => (.error e, r)
    | .ok p => (.ok (), { r with _pipe := some p, _initialized := true })

/-- `ImageModelRunner.load = timeit(loadBody)`. -/
def ImageModelRunner.load {π : Type} (env : ImageEnv π) (t0 t1 : Int) : Method π Unit :=
  timeit t0 t1 (ImageModelRunner.loadBody env)

/-- The `isinstance` dispatch at the top of `ImageModelRunner.run`: a path is
opened and converted (`Image.open(p).convert("RGB")`), an in-memory image is
used as is, and anything else raises `TypeError` — the pipeline is not touched. -/
def ImageModelRunner.resolveInput {π : Type} (env : ImageEnv π) :
    ImageInput → Except Err PILImage
  | .path p => env.openRGB p
  | .pil img => .ok img
  | .intVal _ =>
    .error (.typeError "user_input must be a path or PIL.Image.Image for image tasks.")

/-- `top_k = int(kwargs.get("top_k", 5))`. -/
def Kwargs.topK (kwargs : Kwargs) : Int := (kwargs.top_k.getD (PyNum.int 5)).toInt

/-- Body of `ImageModelRunner.run`: resolve the input, apply `_preprocess`,
read `top_k`, invoke `self._pipe(img, top_k=top_k)`, and build the result dict
with the stale `last_runtime_s`, exactly as the text runner does. -/
def ImageModelRunner.runBody {π : Type} (env : ImageEnv π) (input : ImageInput)
    (kwargs : Kwargs) : Method π RunResult :=
  fun r =>
    match ImageModelRunner.resolveInput env input with
    | .error e => (.error e, r)
    | .ok img0 =>
      match r._pipe with
      | none => (.error (.typeError "NoneType object is not callable"), r)
      | some p =>
        match env.callPipe p (ImageModelRunner._preprocess img0) kwargs.topK with
        | .error e => (.error e, r)
        | .ok results =>
          (.ok { results := results
                 runtime_s := r.last_runtime_s
                 model := r.model_id
                 task := r.task }, r)

/-- `ImageModelRunner.run = ensure_initialized(timeit(runBody))`. -/
def ImageModelRunner.run {π : Type} (env : ImageEnv π) (t0 t1 : Int)
    (input : ImageInput) (kwargs : Kwargs) : Method π RunResult :=
  ensure_initialized (timeit t0 t1 (ImageModelRunner.runBody env input kwargs))

/-- `ImageModelRunner.describe` override. -/
def ImageModelRunner.describe {π : Type} (r : Runner π) : String :=
  "ImageModelRunner overrides describe(): runs an image pipeline (e.g., image-classification).\n"
    ++ "Model: " ++ r.model_id ++ "\nTask: " ++ r.task

/-- `meta()` as dispatched on an `ImageModelRunner` instance. -/
def ImageModelRunner.meta {π : Type} (r : Runner π) : MetaInfo :=
  metaBase ImageModelRunner.describe r

/-! ## Factories -/

/-- `make_text_sentiment_runner`. -/
def make_text_sentiment_runner (π : Type) : Runner π :=
  { model_id := "distilbert-base-uncased-finetuned-sst-2-english"
    task := "sentiment-analysis"
    category := "Text"
    short_description := "Binary sentiment (POSITIVE/NEGATIVE) for short English text." }

/-- `make_image_classifier_runner`. -/
def make_image_classifier_runner (π : Type) : Runner π :=
  { model_id := "google/vit-base-patch16-224"
    task := "image-classification"
    category := "Vision"
    short_description := "ImageNet-style image classification using ViT base." }

/-! ## Concrete environments for witnesses -/

/-- One labeled score, as a sentiment pipeline would return. -/
def demoEntry : ScoreEntry := { label := "POSITIVE", score := (9 : Rat) / 10 }

/-- A provider whose construction succeeds and whose text pipeline accepts any
input, returning one entry. -/
def demoTextEnv : TextEnv Unit :=
  { pipeline := fun _ _ => .ok ()
    callPipe := fun _ _ => .ok [demoEntry] }

/-- The label list an ideal 1000-class classifier returns for a `top_k`
request: `min top_k 1000` entries. -/
def demoLabels (k : Int) : List ScoreEntry :=
  (List.range (min k.toNat 1000)).map fun i => { label := toString i, score := 1 }

/-- A provider whose image pipeline honours the top-k contract over 1000
labels. -/
def demoImageEnv : ImageEnv Unit :=
  { pipeline := fun _ _ => .ok ()
    openRGB := fun _ => .ok { id := 0 }
    callPipe := fun _ _ k => .ok (demoLabels k) }

/-- A provider whose pipeline construction fails (model cannot be fetched). -/
def failTextEnv : TextEnv Unit :=
  { pipeline := fun _ _ => .error (.pipeError "connection error")
    callPipe := fun _ _ => .ok [] }

/-- Image-side provider whose pipeline construction fails. -/
def failImageEnv : ImageEnv Unit :=
  { pipeline := fun _ _ => .error (.pipeError "connection error")
    openRGB := fun _ => .ok { id := 0 }
    callPipe := fun _ _ _ => .ok [] }

/-- A provider whose inference call raises. -/
def errTextEnv : TextEnv Unit :=
  { pipeline := fun _ _ => .ok ()
    callPipe := fun _ _ => .error (.pipeError "inference failed") }

/-- The factory text runner after a `load()` that took 3 time units. -/
def loadedTextRunner : Runner Unit :=
  (TextModelRunner.load demoTextEnv 0 3 (make_text_sentiment_runner Unit)).2

/-- The factory image runner after a `load()` that took 2 time units. -/
def loadedImageRunner : Runner Unit :=
  (ImageModelRunner.load demoImageEnv 0 2 (make_image_classifier_runner Unit)).2

/-! ## Helper lemmas -/

/-- `TextModelRunner.runBody` never writes any field of the runner. -/
theorem text_runBody_state {π : Type} (env : TextEnv π) (input : TextInput)
    (r : Runner π) : (TextModelRunner.runBody env input r).2 = r := by
  unfold TextModelRunner.runBody
  repeat' split
  all_goals rfl

/-- `ImageModelRunner.runBody` never writes any field of the runner. -/
theorem image_runBody_state {π : Type} (env : ImageEnv π) (input : ImageInput)
    (kw : Kwargs) (r : Runner π) :
    (ImageModelRunner.runBody env input kw r).2 = r := by
  unfold ImageModelRunner.runBody
  repeat' split
  all_goals rfl

/-- The length of the demo classifier's answer is `min top_k 1000`. -/
theorem demoLabels_length (k : Int) : (demoLabels k).length = min k.toNat 1000 := by
  simp [demoLabels]

/-! ## Claims -/

/-- C1: for both runners and every environment, input, option set and
timestamp pair, calling `run()` on a runner whose initialization flag is not
set raises the guard's `RuntimeError` and returns the runner unchanged — the
wrapped method body (timing, input handling, pipeline call) never executes,
which is why the outcome does not depend on the environment or the input. -/
theorem run_before_load_raises_uninitialized {π : Type} (envT : TextEnv π)
    (envI : ImageEnv π) (t0 t1 : Int) (input : TextInput) (iinput : ImageInput)
    (kw : Kwargs) (r : Runner π) (h : r._initialized = false) :
    TextModelRunner.run envT t0 t1 input r
      = (.error (.runtimeError uninitializedMsg), r) ∧
    ImageModelRunner.run envI t0 t1 iinput kw r
      = (.error (.runtimeError uninitializedMsg), r) := by
  constructor <;>
    simp [TextModelRunner.run, ImageModelRunner.run, ensure_initialized, h]

/-- C1 witness: the factory runners start with the flag unset, and `run()` on
them fails with the guard error. -/
theorem run_before_load_raises_uninitialized_witness :
    TextModelRunner.run demoTextEnv 0 1 (.str "I love this!")
        (make_text_sentiment_runner Unit)
      = (.error (.runtimeError uninitializedMsg), make_text_sentiment_runner Unit) ∧
    ImageModelRunner.run demoImageEnv 0 1 (.path "cat.png") {}
        (make_image_classifier_runner Unit)
      = (.error (.runtimeError uninitializedMsg), make_image_classifier_runner Unit) :=
  ⟨(run_before_load_raises_uninitialized demoTextEnv demoImageEnv 0 1
      (.str "I love this!") (.path "cat.png") {} (make_text_sentiment_runner Unit)
      rfl).1,
   (run_before_load_raises_uninitialized demoTextEnv demoImageEnv 0 1
      (.str "I love this!") (.path "cat.png") {} (make_image_classifier_runner Unit)
      rfl).2⟩

/-- C2: for both runners, a `load()` whose pipeline construction succeeds
leaves the initialization flag true, and once the flag is true no operation of
the public interface resets it: `load()` and `run()` preserve it (`meta()` and
`describe()` are read-only — in this embedding they are functions of the
runner that return no state at all). There is no `LOADED -> UNLOADED`
transition. -/
theorem loaded_runner_stays_loaded {π : Type} (envT : TextEnv π)
    (envI : ImageEnv π) (t0 t1 : Int) (input : TextInput) (iinput : ImageInput)
    (kw : Kwargs) (r : Runner π) :
    (∀ p, envT.pipeline r.task r.model_id = .ok p →
      (TextModelRunner.load envT t0 t1 r).2._initialized = true) ∧
    (∀ p, envI.pipeline r.task r.model_id = .ok p →
      (ImageModelRunner.load envI t0 t1 r).2._initialized = true) ∧
    (r._initialized = true →
      (TextModelRunner.load envT t0 t1 r).2._initialized = true ∧
      (ImageModelRunner.load envI t0 t1 r).2._initialized = true ∧
      (TextModelRunner.run envT t0 t1 input r).2._initialized = true ∧
      (ImageModelRunner.run envI t0 t1 iinput kw r).2._initialized = true) := by
  refine ⟨?_, ?_, fun hinit => ⟨?_, ?_, ?_, ?_⟩⟩
  · intro p hp
    simp [TextModelRunner.load, timeit, TextModelRunner.loadBody, hp]
  · intro p hp
    simp [ImageModelRunner.load, timeit, ImageModelRunner.loadBody, hp]
  · cases hp : envT.pipeline r.task r.model_id <;>
      simp [TextModelRunner.load, timeit, TextModelRunner.loadBody, hp, hinit]
  · cases hp : envI.pipeline r.task r.model_id <;>
      simp [ImageModelRunner.load, timeit, ImageModelRunner.loadBody, hp, hinit]
  · simp [TextModelRunner.run, ensure_initialized, hinit, timeit,
      text_runBody_state]
  · simp [ImageModelRunner.run, ensure_initialized, hinit, timeit,
      image_runBody_state]

/-- C2 witness: the demo providers construct their pipelines, so the loaded
factory runners carry the flag, and it survives a further `load()` and a
`run()`. -/
theorem loaded_runner_stays_loaded_witness :
    loadedTextRunner._initialized = true ∧
    (TextModelRunner.run demoTextEnv 10 11 (.str "I love this!")
      loadedTextRunner).2._initialized = true ∧
    (ImageModelRunner.run demoImageEnv 10 11 (.pil { id := 0 }) {}
      loadedImageRunner).2._initialized = true :=
  ⟨(loaded_runner_stays_loaded demoTextEnv demoImageEnv 0 3 (.str "x")
      (.pil { id := 0 }) {} (make_text_sentiment_runner Unit)).1 () rfl,
   ((loaded_runner_stays_loaded demoTextEnv demoImageEnv 10 11 (.str "I love this!")
      (.pil { id := 0 }) {} loadedTextRunner).2.2 rfl).2.2.1,
   ((loaded_runner_stays_loaded demoTextEnv demoImageEnv 10 11 (.str "I love this!")
      (.pil { id := 0 }) {} loadedImageRunner).2.2 rfl).2.2.2⟩

/-- C3: for an initialized runner (only then does the guard let the wrapped,
timed body execute) and a wall clock that does not run backwards during the
call (`t0 ≤ t1`), every `run()` invocation — whether the body returns or
raises — ends with `last_runtime_s` set to the elapsed time `t1 - t0 ≥ 0`, and
the body's outcome, exception included, is passed through unchanged (the first
two conjuncts equate the full call with the raw body's outcome). -/
theorem run_always_records_nonneg_runtime {π : Type} (envT : TextEnv π)
    (envI : ImageEnv π) (t0 t1 : Int) (input : TextInput) (iinput : ImageInput)
    (kw : Kwargs) (r : Runner π) (hinit : r._initialized = true)
    (hclock : t0 ≤ t1) :
    TextModelRunner.run envT t0 t1 input r
      = ((TextModelRunner.runBody envT input r).1,
         { r with last_runtime_s := t1 - t0 }) ∧
    ImageModelRunner.run envI t0 t1 iinput kw r
      = ((ImageModelRunner.runBody envI iinput kw r).1,
         { r with last_runtime_s := t1 - t0 }) ∧
    0 ≤ (TextModelRunner.run envT t0 t1 input r).2.last_runtime_s ∧
    0 ≤ (ImageModelRunner.run envI t0 t1 iinput kw r).2.last_runtime_s := by
  refine ⟨?_, ?_, ?_, ?_⟩ <;>
    simp [TextModelRunner.run, ImageModelRunner.run, ensure_initialized, hinit,
      timeit, text_runBody_state, image_runBody_state] <;>
    omega

/-- C3 witness: a run whose pipeline call raises still records the elapsed
time 2 and re-raises the provider's error unchanged. -/
theorem run_always_records_nonneg_runtime_witness :
    TextModelRunner.run errTextEnv 10 12 (.str "hi") loadedTextRunner
      = (.error (.pipeError "inference failed"),
         { loadedTextRunner with last_runtime_s := 2 }) ∧
    0 ≤ (ImageModelRunner.run demoImageEnv 5 6 (.pil { id := 0 }) {}
          loadedImageRunner).2.last_runtime_s :=
  ⟨(run_always_records_nonneg_runtime errTextEnv demoImageEnv 10 12 (.str "hi")
      (.pil { id := 0 }) {} loadedTextRunner rfl (by decide)).1,
   (run_always_records_nonneg_runtime errTextEnv demoImageEnv 5 6 (.str "hi")
      (.pil { id := 0 }) {} loadedImageRunner rfl (by decide)).2.2.2⟩

/-- C4 (bug evidence): the result dict is built inside the timed body, so its
`runtime_s` field copies `last_runtime_s` *before* `timeit`'s `finally` block
overwrites it — it echoes the previous timed operation's runtime, not this
invocation's. Concretely: `load()` takes 3 time units, the subsequent `run()`
takes 1; the returned Result carries `runtime_s = 3` (with the correct result
list and model/task echoes) while the attribute `last_runtime_s` is 1
afterwards — and `3 ≠ 1`. -/
theorem run_result_runtime_is_stale :
    loadedTextRunner.last_runtime_s = 3 ∧
    (TextModelRunner.run demoTextEnv 10 11 (.str "I love this!")
        loadedTextRunner).1
      = .ok { results := [demoEntry]
              runtime_s := 3
              model := "distilbert-base-uncased-finetuned-sst-2-english"
              task := "sentiment-analysis" } ∧
    (TextModelRunner.run demoTextEnv 10 11 (.str "I love this!")
        loadedTextRunner).2.last_runtime_s = 1 ∧
    (3 : Int) ≠ 1 :=
  ⟨rfl, rfl, rfl, by decide⟩

/-- C5: for every environment (in particular, whatever the pipeline would do —
it is never consulted), an initialized image runner given an input that is
neither a path string nor an in-memory image (here: any integer) raises the
`TypeError` from the `isinstance` dispatch; only the timing `finally` block
still touches the state. -/
theorem image_run_rejects_nonimage_input {π : Type} (env : ImageEnv π)
    (t0 t1 : Int) (n : Int) (kw : Kwargs) (r : Runner π)
    (hinit : r._initialized = true) :
    ImageModelRunner.run env t0 t1 (.intVal n) kw r
      = (.error (.typeError
            "user_input must be a path or PIL.Image.Image for image tasks."),
         { r with last_runtime_s := t1 - t0 }) := by
  simp [ImageModelRunner.run, ensure_initialized, hinit, timeit,
    ImageModelRunner.runBody, ImageModelRunner.resolveInput]

/-- C5 witness: the loaded image runner rejects the integer input `7`. -/
theorem image_run_rejects_nonimage_input_witness :
    ImageModelRunner.run demoImageEnv 4 9 (.intVal 7) {} loadedImageRunner
      = (.error (.typeError
            "user_input must be a path or PIL.Image.Image for image tasks."),
         { loadedImageRunner with last_runtime_s := 5 }) :=
  image_run_rejects_nonimage_input demoImageEnv 4 9 7 {} loadedImageRunner rfl

/-- C6: for an initialized image runner with pipe `p`, `run()` on an in-memory
image invokes the pipeline with `int(kwargs.get("top_k", 5))` — the first
conjunct equates the outcome with the pipeline called at exactly that value,
for every option set, and the second checks the absent-key default is 5.
When the provider honours the top-k contract (`|answer| = min top_k numLabels`
for a label set of size `numLabels ≥ 1`), a successful run with `top_k = 1`
returns exactly one entry and with `top_k = 3` at most three. -/
theorem image_run_top_k_limits_results {π : Type} (env : ImageEnv π)
    (t0 t1 : Int) (img : PILImage) (r : Runner π) (p : π) (numLabels : Nat)
    (hinit : r._initialized = true) (hpipe : r._pipe = some p)
    (hL : 1 ≤ numLabels)
    (hcontract : ∀ im k res, env.callPipe p im k = .ok res →
      res.length = min k.toNat numLabels) :
    (∀ kw : Kwargs,
      (ImageModelRunner.run env t0 t1 (.pil img) kw r).1
        = (env.callPipe p (ImageModelRunner._preprocess img) kw.topK).map
            (fun results =>
              { results := results
                runtime_s := r.last_runtime_s
                model := r.model_id
                task := r.task })) ∧
    (Kwargs.topK {} = 5) ∧
    (∀ res, (ImageModelRunner.run env t0 t1 (.pil img)
        { top_k := some (.int 1) } r).1 = .ok res → res.results.length = 1) ∧
    (∀ res, (ImageModelRunner.run env t0 t1 (.pil img)
        { top_k := some (.int 3) } r).1 = .ok res → res.results.length ≤ 3) := by
  have hrun : ∀ kw : Kwargs,
      (ImageModelRunner.run env t0 t1 (.pil img) kw r).1
        = (env.callPipe p (ImageModelRunner._preprocess img) kw.topK).map
            (fun results =>
              { results := results
                runtime_s := r.last_runtime_s
                model := r.model_id
                task := r.task }) := by
    intro kw
    cases hc : env.callPipe p (ImageModelRunner._preprocess img) kw.topK <;>
      simp [ImageModelRunner.run, ensure_initialized, hinit, timeit,
        ImageModelRunner.runBody, ImageModelRunner.resolveInput, hpipe, hc,
        Except.map]
  refine ⟨hrun, rfl, ?_, ?_⟩
  · intro res hres
    rw [hrun] at hres
    cases hc : env.callPipe p (ImageModelRunner._preprocess img)
        (Kwargs.topK { top_k := some (.int 1) }) with
    | error e => rw [hc] at hres; simp [Except.map] at hres
    | ok l =>
      rw [hc] at hres
      simp only [Except.map, Except.ok.injEq] at hres
      have hlen := hcontract _ _ _ hc
      simp only [Kwargs.topK, Option.getD, PyNum.toInt] at hlen
      rw [← hres]
      simp only [hlen]
      omega
  · intro res hres
    rw [hrun] at hres
    cases hc : env.callPipe p (ImageModelRunner._preprocess img)
        (Kwargs.topK { top_k := some (.int 3) }) with
    | error e => rw [hc] at hres; simp [Except.map] at hres
    | ok l =>
      rw [hc] at hres
      simp only [Except.map, Except.ok.injEq] at hres
      have hlen := hcontract _ _ _ hc
      simp only [Kwargs.topK, Option.getD, PyNum.toInt] at hlen
      rw [← hres]
      simp only [hlen]
      omega

/-- C6 witness: against the 1000-label demo provider, the loaded image runner
run with `top_k = 1` answers with exactly the one top entry. -/
theorem image_run_top_k_limits_results_witness :
    (ImageModelRunner.run demoImageEnv 0 1 (.pil { id := 5 })
        { top_k := some (.int 1) } loadedImageRunner).1
      = .ok { results := [{ label := "0", score := 1 }]
              runtime_s := 2
              model := "google/vit-base-patch16-224"
              task := "image-classification" } ∧
    ({ results := [{ label := "0", score := 1 }]
       runtime_s := 2
       model := "google/vit-base-patch16-224"
       task := "image-classification" } : RunResult).results.length = 1 := by
  have h := image_run_top_k_limits_results demoImageEnv 0 1 { id := 5 }
    loadedImageRunner () 1000 rfl rfl (by omega) ?hc
  case hc =>
    intro im k res hres
    injection hres with h2
    rw [← h2]
    exact demoLabels_length k
  exact ⟨rfl, h.2.2.1 _ rfl⟩

/-- Both branches of a text `load()` keep the identifying fields. -/
theorem text_load_fields {π : Type} (env : TextEnv π) (t0 t1 : Int)
    (r : Runner π) :
    (TextModelRunner.load env t0 t1 r).2.model_id = r.model_id ∧
    (TextModelRunner.load env t0 t1 r).2.category = r.category := by
  cases hp : env.pipeline r.task r.model_id <;>
    simp [TextModelRunner.load, timeit, TextModelRunner.loadBody, hp]

/-- Both branches of an image `load()` keep the identifying fields. -/
theorem image_load_fields {π : Type} (env : ImageEnv π) (t0 t1 : Int)
    (r : Runner π) :
    (ImageModelRunner.load env t0 t1 r).2.model_id = r.model_id ∧
    (ImageModelRunner.load env t0 t1 r).2.category = r.category := by
  cases hp : env.pipeline r.task r.model_id <;>
    simp [ImageModelRunner.load, timeit, ImageModelRunner.loadBody, hp]

/-- C7: `meta()` is an undecorated read-only method (in this embedding a plain
function of the runner that returns no state), it needs no initialization, and
its output does not depend on the load-state fields: overwriting the
initialization flag, the pipe reference and the recorded runtime leaves the
whole `meta()` dict unchanged, and after a `load()` — successful or not — the
name and category it reports are those reported before. -/
theorem meta_independent_of_load_state {π : Type} (envT : TextEnv π)
    (envI : ImageEnv π) (t0 t1 : Int) (b : Bool) (po : Option π) (ts : Int)
    (r : Runner π) :
    TextModelRunner.meta
        { r with _initialized := b, _pipe := po, last_runtime_s := ts }
      = TextModelRunner.meta r ∧
    ImageModelRunner.meta
        { r with _initialized := b, _pipe := po, last_runtime_s := ts }
      = ImageModelRunner.meta r ∧
    (TextModelRunner.meta (TextModelRunner.load envT t0 t1 r).2).name
      = (TextModelRunner.meta r).name ∧
    (TextModelRunner.meta (TextModelRunner.load envT t0 t1 r).2).category
      = (TextModelRunner.meta r).category ∧
    (ImageModelRunner.meta (ImageModelRunner.load envI t0 t1 r).2).name
      = (ImageModelRunner.meta r).name ∧
    (ImageModelRunner.meta (ImageModelRunner.load envI t0 t1 r).2).category
      = (ImageModelRunner.meta r).category :=
  ⟨rfl, rfl,
   (text_load_fields envT t0 t1 r).1, (text_load_fields envT t0 t1 r).2,
   (image_load_fields envI t0 t1 r).1, (image_load_fields envI t0 t1 r).2⟩

/-- C8: when pipeline construction raises, `load()` re-raises that very error,
and a runner that was `UNLOADED` stays so: the flag stays false and the pipe
reference stays `none` (only the timing attribute is written, by `timeit`'s
`finally` block). -/
theorem load_failure_leaves_unloaded {π : Type} (envT : TextEnv π)
    (envI : ImageEnv π) (t0 t1 : Int) (r : Runner π) (e e2 : Err)
    (hT : envT.pipeline r.task r.model_id = .error e)
    (hI : envI.pipeline r.task r.model_id = .error e2)
    (hinit : r._initialized = false) (hpipe : r._pipe = none) :
    TextModelRunner.load envT t0 t1 r
      = (.error e, { r with last_runtime_s := t1 - t0 }) ∧
    ImageModelRunner.load envI t0 t1 r
      = (.error e2, { r with last_runtime_s := t1 - t0 }) ∧
    (TextModelRunner.load envT t0 t1 r).2._initialized = false ∧
    (TextModelRunner.load envT t0 t1 r).2._pipe = none ∧
    (ImageModelRunner.load envI t0 t1 r).2._initialized = false ∧
    (ImageModelRunner.load envI t0 t1 r).2._pipe = none := by
  have h1 : TextModelRunner.load envT t0 t1 r
      = (.error e, { r with last_runtime_s := t1 - t0 }) := by
    simp [TextModelRunner.load, timeit, TextModelRunner.loadBody, hT]
  have h2 : ImageModelRunner.load envI t0 t1 r
      = (.error e2, { r with last_runtime_s := t1 - t0 }) := by
    simp [ImageModelRunner.load, timeit, ImageModelRunner.loadBody, hI]
  refine ⟨h1, h2, ?_, ?_, ?_, ?_⟩ <;> simp [h1, h2, hinit, hpipe]

/-- C8 witness: against providers whose construction raises a connection
error, `load()` on the factory runners propagates the error and leaves the
flag unset. -/
theorem load_failure_leaves_unloaded_witness :
    TextModelRunner.load failTextEnv 0 4 (make_text_sentiment_runner Unit)
      = (.error (.pipeError "connection error"),
         { make_text_sentiment_runner Unit with last_runtime_s := 4 }) ∧
    (ImageModelRunner.load failImageEnv 0 4
      (make_image_classifier_runner Unit)).2._initialized = false :=
  ⟨(load_failure_leaves_unloaded failTextEnv failImageEnv 0 4
      (make_text_sentiment_runner Unit) _ _ rfl rfl rfl rfl).1,
   (load_failure_leaves_unloaded failTextEnv failImageEnv 0 4
      (make_image_classifier_runner Unit) _ _ rfl rfl rfl rfl).2.2.2.2.1⟩

/-- C9 counterexample: the claim "run() with a non-string input fails with a
type error" is false as stated — a list of strings is a non-string input with
a length, so the log line does not raise, and the (opaque) pipeline receives
it; against a provider that accepts it, the loaded text runner's `run()`
succeeds with an ordinary result and no type error at all. -/
theorem text_run_list_input_no_type_error :
    (TextModelRunner.run demoTextEnv 10 11 (.list ["good", "bad"])
        loadedTextRunner).1
      = .ok { results := [demoEntry]
              runtime_s := 3
              model := "distilbert-base-uncased-finetuned-sst-2-english"
              task := "sentiment-analysis" } := rfl

/-- C9 (amended): for the text runner after a successful `load()`, an input
that does not support `len()` — such as an integer — fails with a type error,
raised by the log line's `len(user_input)` before the pipeline is ever
consulted (the outcome is the same for every environment); inputs that do
support `len()` are passed to the pipeline without any type check at this
layer. -/
theorem text_run_lenless_input_type_error {π : Type} (env : TextEnv π)
    (t0 t1 : Int) (n : Int) (r : Runner π) (hinit : r._initialized = true) :
    TextModelRunner.run env t0 t1 (.int n) r
      = (.error (.typeError "object of type int has no len()"),
         { r with last_runtime_s := t1 - t0 }) := by
  simp [TextModelRunner.run, ensure_initialized, hinit, timeit,
    TextModelRunner.runBody, pyLen]

/-- C9 witness: the loaded text runner rejects the integer input `42`. -/
theorem text_run_lenless_input_type_error_witness :
    TextModelRunner.run demoTextEnv 0 1 (.int 42) loadedTextRunner
      = (.error (.typeError "object of type int has no len()"),
         { loadedTextRunner with last_runtime_s := 1 }) :=
  text_run_lenless_input_type_error demoTextEnv 0 1 42 loadedTextRunner rfl

/-- C10: for both runners, `meta()` returns `describe()`'s output as
`short_description` exactly when the stored `short_description` is the empty
string (the only falsy string), and returns the stored string verbatim
otherwise. -/
theorem meta_short_description_fallback {π : Type} (r : Runner π) :
    (r.short_description = "" →
      (TextModelRunner.meta r).short_description = TextModelRunner.describe r ∧
      (ImageModelRunner.meta r).short_description = ImageModelRunner.describe r) ∧
    (r.short_description ≠ "" →
      (TextModelRunner.meta r).short_description = r.short_description ∧
      (ImageModelRunner.meta r).short_description = r.short_description) := by
  constructor <;> intro h <;> constructor <;>
    simp [TextModelRunner.meta, ImageModelRunner.meta, metaBase, h]

/-- C10 witness: with its description blanked, the factory text runner's
`meta()` falls back to `describe()`; the factory image runner's non-empty
description is echoed verbatim. -/
theorem meta_short_description_fallback_witness :
    (TextModelRunner.meta
        { make_text_sentiment_runner Unit with short_description := "" }
      ).short_description
      = TextModelRunner.describe
          { make_text_sentiment_runner Unit with short_description := "" } ∧
    (ImageModelRunner.meta (make_image_classifier_runner Unit)).short_description
      = (make_image_classifier_runner Unit).short_description :=
  ⟨((meta_short_description_fallback _).1 rfl).1,
   ((meta_short_description_fallback _).2 (by decide)).2⟩

end HFApp
